import Mathlib

/-!
# Verification of the Medical RAG pipeline

Shallow embedding of the repository `Medical_RAG_LLM`:
`src/data_prep/preprocess_text.py`, `preprocess_image.py`, `preprocess_audio.py`,
`src/query_data.py` and `api_server.py`.

External services (the sentence splitter, the SHA-256 primitive, the version-5
UUID primitive, OCR, captioning, transcription, the vector store retriever and
the Gemini generation call) are boundaries of the program; they appear as
function parameters, exactly as the program receives their results.  All
repository logic is concrete.
-/

namespace MedicalRAG

/-- Python dictionaries with string keys and string values (the `metadata`
dicts of the pipeline), modelled as association lists in insertion order. -/
abbrev Metadata := List (String × String)

/-- Python `dict.get(k)`: `none` models Python `None` for a missing key. -/
def Metadata.get (md : Metadata) (k : String) : Option String :=
  List.lookup k md

/-- Models `filepath.split(os.sep)[-1]` (`preprocess_*.py`) and
`os.path.basename(file_path)` (`query_data.py`, line 173), which on a
POSIX separator both evaluate to the suffix of the path after its last
separator character. -/
def basename (p : String) : String :=
  ⟨((p.data.reverse.takeWhile (fun c => c ≠ '/')).reverse)⟩

/-- The whitespace characters Python's `str.strip()` removes. -/
def isPySpace (c : Char) : Bool :=
  c == ' ' || c == '\t' || c == '\n' || c == '\r' || c == '\x0b' || c == '\x0c'

/-- Python `str.strip()`: drop leading and trailing whitespace. -/
def pyStrip (s : String) : String :=
  ⟨(((s.data.dropWhile isPySpace).reverse.dropWhile isPySpace).reverse)⟩

/-- The fixed namespace constant `uuid.NAMESPACE_DNS`
(6ba7b810-9dad-11d1-80b4-00c04fd430c8) as its sixteen bytes. -/
def NAMESPACE_DNS : List Nat :=
  [0x6b, 0xa7, 0xb8, 0x10, 0x9d, 0xad, 0x11, 0xd1,
   0x80, 0xb4, 0x00, 0xc0, 0x4f, 0xd4, 0x30, 0xc8]

/-- `str(uuid.uuid5(uuid.NAMESPACE_DNS, seed))`, the ID generation expression
shared by `preprocess_text.py` (line 28), `preprocess_image.py` (line 56) and
`preprocess_audio.py` (line 38).  The version-5 UUID primitive `uuid5` is a
standard-library boundary and is passed in as a function; the namespace
argument is the fixed process-wide constant. -/
def generate_id (uuid5 : List Nat → String → String) (seed : String) : String :=
  uuid5 NAMESPACE_DNS seed

/-! ## Text preprocessing (`src/data_prep/preprocess_text.py`) -/

/-- A LlamaIndex `Document`/`TextNode` as the pipeline uses it: its text, its
metadata dict, and its `id_` field. -/
structure Document where
  text : String
  metadata : Metadata
  id_ : String
deriving DecidableEq, Repr

/-- A chunk as produced by the external `SentenceSplitter` (a library
boundary): its text and its `start_char_idx`.  `llama_index` records
`start_char_idx` as a typed attribute of the `TextNode`, never as an entry of
the node's metadata dict — the node's metadata is only the parent document's
metadata merged in. -/
structure Chunk where
  text : String
  start_char_idx : Option Nat
deriving DecidableEq, Repr

/-- Python's `f"{x}"` on an `Optional[str]`: `None` renders as `"None"`. -/
def pyStr (o : Option String) : String :=
  o.getD "None"

/-- The loop body of `get_text_chunks_from_text` (`preprocess_text.py`
lines 22–31): read `doc.metadata.get('start_char_idx', '0')` — a lookup in
the node's *metadata dict*, which holds only the parent document's metadata
(the chunk's `start_char_idx` attribute is not in it, so the lookup always
falls back to the default `'0'`) — build the seed
`f"{metadata.get('source')}_{start_index}"`, derive the deterministic ID, and
store it both as `id_` and under the `'id'` metadata key. -/
def chunkDoc (uuid5 : List Nat → String → String) (source_metadata : Metadata)
    (c : Chunk) : Document :=
  let start_index := (Metadata.get source_metadata "start_char_idx").getD "0"
  let unique_string :=
    pyStr (Metadata.get source_metadata "source") ++ "_" ++ start_index
  let doc_id := generate_id uuid5 unique_string
  { text := c.text
    metadata := source_metadata ++ [("id", doc_id)]
    id_ := doc_id }

/-- `get_text_chunks_from_text` (`preprocess_text.py` lines 6–33): split the
text via the external splitter, then assign a deterministic ID to every chunk.
Each produced node carries the document's `source_metadata` (LlamaIndex
propagates document metadata to all nodes). -/
def get_text_chunks_from_text (uuid5 : List Nat → String → String)
    (splitter : String → List Chunk) (text : String) (source_metadata : Metadata) :
    List Document :=
  (splitter text).map (chunkDoc uuid5 source_metadata)

/-- `process_text_file` (`preprocess_text.py` lines 35–47): reading the file
may raise (decode error, missing file), modelled by the `Except` argument; a
failure yields `[]`, success chunks the content with
`{'source': filepath.split(os.sep)[-1], 'type': 'text'}` as metadata. -/
def process_text_file (uuid5 : List Nat → String → String)
    (splitter : String → List Chunk) (readResult : Except String String)
    (filepath : String) : List Document :=
  match readResult with
  | .error _ => []
  | .ok content =>
      get_text_chunks_from_text uuid5 splitter content
        [("source", basename filepath), ("type", "text")]

/-! ## Content hashing (`preprocess_image.py` lines 14–24, identical copy in
`preprocess_audio.py` lines 15–25) -/

/-- Structural helper for `readChunks`: the first argument is fuel bounding
the list length, so the recursion is structural (and kernel-evaluable). -/
def readChunksAux : Nat → List Nat → List (List Nat)
  | _, [] => []
  | 0, _ :: _ => []
  | fuel + 1, a :: t => ((a :: t).take 8192) :: readChunksAux fuel ((a :: t).drop 8192)

/-- The read loop `while chunk := f.read(8192)`: the file's byte content split
into successive blocks of 8192 bytes (the last block may be shorter). -/
def readChunks (l : List Nat) : List (List Nat) :=
  readChunksAux l.length l

/-- `hash_file_content`: stream the file's bytes through `sha256.update` in
8 KiB blocks and return `sha256.hexdigest()`.  The SHA-256 primitive is a
standard-library boundary passed as `sha256hex`; feeding it the concatenation
of all updated blocks is `hashlib`'s incremental-hashing contract.  The
function's `except` branch (unreadable file → random `uuid4` fallback) is not
modelled: the claims quantify over readable files, whose content is `contents`. -/
def hash_file_content (sha256hex : List Nat → String) (contents : List Nat) : String :=
  sha256hex (readChunks contents).flatten

/-! ## Image preprocessing (`src/data_prep/preprocess_image.py`) -/

/-- `generate_image_caption_gemini` (`preprocess_image.py` lines 26–47):
without an API key it returns `""` without calling the model; with a key the
external captioning call either returns text or raises, and any exception is
caught and converted to `""`. -/
def generate_image_caption_gemini (apiKey : Option String)
    (captionCall : Except String String) : String :=
  match apiKey with
  | none => ""
  | some _ =>
      match captionCall with
      | .ok text => text
      | .error _ => ""

/-- `process_image_file` (`preprocess_image.py` lines 49–88).  The OCR call
may raise (modelled by `ocrCall : Except`), leaving `ocr_text` as `""`; a
successful OCR result `t` is wrapped as `f"OCR Text: {t.strip()}\n"`.  The
caption, when non-empty, is wrapped as a labelled visual description.  When
both wrapped texts strip to empty, the file is skipped (zero documents);
otherwise one document is produced whose ID is the version-5 UUID of the
file-content hash. -/
def process_image_file (uuid5 : List Nat → String → String)
    (sha256hex : List Nat → String) (apiKey : Option String)
    (captionCall : Except String String) (ocrCall : Except String String)
    (filepath : String) (fileBytes : List Nat) : List Document :=
  let file_hash := hash_file_content sha256hex fileBytes
  let deterministic_base_id := generate_id uuid5 file_hash
  let ocr_text :=
    match ocrCall with
    | .ok t => "OCR Text: " ++ pyStrip t ++ "\n"
    | .error _ => ""
  let caption_text0 := generate_image_caption_gemini apiKey captionCall
  let caption_text :=
    if caption_text0 ≠ "" then "Visual Description (Gemini): " ++ pyStrip caption_text0
    else caption_text0
  let combined_content :=
    "--- Image Analysis for " ++ basename filepath ++ " ---\n" ++ ocr_text ++ "\n"
      ++ caption_text
  if pyStrip ocr_text = "" ∧ pyStrip caption_text = "" then []
  else
    let filename := basename filepath
    [{ text := pyStrip combined_content
       metadata := [("source", filename), ("type", "image_analysis"),
                    ("id", deterministic_base_id)]
       id_ := deterministic_base_id }]

/-! ## Audio preprocessing (`src/data_prep/preprocess_audio.py`) -/

/-- `process_audio_file` (`preprocess_audio.py` lines 27–71): no API key →
skip; the transcription call either raises or errors (`.error`, covering both
the `TranscriptStatus.error` branch and the outer `except`) → `[]`; an empty
stripped transcription → `[]`; otherwise one document whose ID is the
version-5 UUID of the file-content hash. -/
def process_audio_file (uuid5 : List Nat → String → String)
    (sha256hex : List Nat → String) (assemblyKey : Option String)
    (transcribeCall : Except String String) (filepath : String)
    (fileBytes : List Nat) : List Document :=
  match assemblyKey with
  | none => []
  | some _ =>
      let file_hash := hash_file_content sha256hex fileBytes
      let deterministic_base_id := generate_id uuid5 file_hash
      match transcribeCall with
      | .error _ => []
      | .ok text =>
          let transcription := pyStrip text
          if transcription = "" then []
          else
            let content := "--- AssemblyAI Transcription ---\n" ++ transcription
            let filename := basename filepath
            [{ text := content
               metadata := [("source", filename), ("type", "audio_transcription"),
                            ("id", deterministic_base_id)]
               id_ := deterministic_base_id }]

/-! ## Query pipeline (`src/query_data.py`) -/

/-- A retrieved node (`NodeWithScore`): metadata dict, similarity score and
content.  The score only ever reaches the program through the f-string
rendering `f"{node.score:.4f}"`, so it is carried here as that rendered
string (Lean has no IEEE floats in this shallow embedding). -/
structure Node where
  metadata : Metadata
  score : String
  content : String
deriving DecidableEq, Repr

/-- The clinical template (`query_data.py` lines 81–86). -/
def doctorInstruction : String :=
  "You are a Chief Medical Officer (CMO) performing a rapid, definitive assessment. "
    ++ "Your audience is a medical specialist. Use precise technical terminology (e.g., myalgia, iatrogenic hyperthyroidism, vasogenic edema). "
    ++ "You must state a definite diagnosis, cause, and concrete intervention based on the most likely clinical inference. "
    ++ "FORBIDDEN phrases: \x27cannot be established,\x27 \x27undetermined,\x27 \x27non-specific,\x27 or \x27requires further investigation.\x27 "

/-- The patient template (`query_data.py` lines 89–93). -/
def patientInstruction : String :=
  "You are a caring medical explainer (CMO persona) speaking directly to the patient. "
    ++ "Use clear, simple, and empathetic language. Explain all medical terms using everyday words (e.g., \x27Hypothyroidism\x27 should be explained as \x27Your body\x27s master gland is running too slow\x27). "
    ++ "Your output must be reassuring but accurate, focusing on what the patient needs to know and do. "

/-- `get_system_instruction` (`query_data.py` lines 77–93): `'DOCTOR'` selects
the clinical template; everything else defaults to the patient template. -/
def get_system_instruction (persona : String) : String :=
  if persona = "DOCTOR" then doctorInstruction
  else patientInstruction

/-- The fixed structural mandate appended to the persona template
(`query_data.py` lines 104–112). -/
def system_instruction_of (persona : String) : String :=
  get_system_instruction persona
    ++ "Your response MUST be strictly structured using Markdown bolding for the three requested section titles below, "
    ++ "and must only contain the structure and content.\n"
    ++ "1. **Clinical Explanation and Summary**\n"
    ++ "2. **Problem/Diagnosis and Cause**\n"
    ++ "3. **Recommended Intervention and Risks**\n"
    ++ "Base your analysis ONLY on the CONTEXT provided."

/-- The user prompt (`query_data.py` lines 114–118). -/
def user_prompt_of (query context source_file : String) : String :=
  "Analyze the context from the file \x27" ++ source_file
    ++ "\x27 to address the user request: \x27" ++ query ++ "\x27. "
    ++ "Begin your response immediately with the first structured section title. Adhere strictly to the requested persona.\n\n"
    ++ "--- CONTEXT FOR ANALYSIS ---\n" ++ context

/-- The two exception classes caught around the generation call:
`GeminiAPIError` and any other `Exception`, each carrying its message. -/
inductive GenError where
  | apiError (msg : String)
  | other (msg : String)
deriving DecidableEq, Repr

/-- The fixed short-circuit string of `call_llm_for_generation` line 100. -/
def clientInactiveMsg : String :=
  "🛑 ERROR: Gemini client not active. Cannot generate structured response."

/-- The error string a caught exception is converted into
(`query_data.py` lines 131–134). -/
def genErrorMsg : GenError → String
  | .apiError e => "\n[Gemini API Error]: Failed to generate response. Error: " ++ e
  | .other e => "\n[Gemini Fatal Error]: Failed to generate response. Error: " ++ e

/-- `call_llm_for_generation` (`query_data.py` lines 95–134).  The module
globals `GEMINI_CLIENT` (a client handle or `None`) and `AI_CLIENT` (`None` or
`"gemini"`) are passed in; the generation call itself is a boundary mapping
(system instruction, user prompt) to either a response text or a raised
error. -/
def call_llm_for_generation (geminiClient : Option Unit) (aiClient : Option String)
    (generate : String → String → Except GenError String)
    (query context source_file persona : String) : String :=
  if geminiClient = none ∨ aiClient ≠ some "gemini" then
    clientInactiveMsg
  else
    match generate (system_instruction_of persona) (user_prompt_of query context source_file) with
    | .ok response => response
    | .error e => genErrorMsg e

/-- The strict client-side re-filter of `run_rag_query` (`query_data.py`
lines 179–186): keep exactly the nodes whose `metadata.get('source')` equals
`target_filename`, in their retrieved order. -/
def strictly_filtered_nodes (target_filename : String) (nodes : List Node) : List Node :=
  nodes.filter (fun node => decide (Metadata.get node.metadata "source" = some target_filename))

/-- The empty-retrieval sentinel of `run_rag_query` line 191. -/
def noContextMsg (target_filename : String) : String :=
  "No context retrieved from the targeted file: " ++ target_filename
    ++ ". Cannot generate analysis."

/-- One serialized chunk of the aggregated context (`run_rag_query`
lines 196–202). -/
def serializeNode (node : Node) : String :=
  "Source: " ++ (Metadata.get node.metadata "source").getD "N/A"
    ++ " (Type: " ++ (Metadata.get node.metadata "type").getD "unknown"
    ++ ", Score: " ++ node.score ++ ")\nContent: " ++ pyStrip node.content

/-- Context aggregation (`run_rag_query` lines 190–204): the sentinel for an
empty node list, otherwise the serialized chunks joined by the separator. -/
def aggregate_context (target_filename : String) (nodes : List Node) : String :=
  if nodes.isEmpty then noContextMsg target_filename
  else String.intercalate "\n\n--- Retrieved Chunk ---\n\n" (nodes.map serializeNode)

/-- The node list `run_rag_query` passes on to aggregation: the store's
response (`retrieve_targeted_context`, a boundary around the Qdrant-filtered
retriever, possibly permissive or broken) re-filtered strictly against
`target_filename = os.path.basename(file_path)`. -/
def ragNodes (retrieve : String → String → Nat → List Node)
    (user_query file_path : String) (top_k : Nat) : List Node :=
  strictly_filtered_nodes (basename file_path)
    (retrieve user_query (basename file_path) top_k)

/-- The aggregated context `run_rag_query` builds (lines 190–204). -/
def ragAggregated (retrieve : String → String → Nat → List Node)
    (user_query file_path : String) (top_k : Nat) : String :=
  aggregate_context (basename file_path) (ragNodes retrieve user_query file_path top_k)

/-- The final answer `run_rag_query` computes (line 208): the generation call
receives the aggregated context and the target filename. -/
def ragFinalAnswer (geminiClient : Option Unit) (aiClient : Option String)
    (generate : String → String → Except GenError String)
    (retrieve : String → String → Nat → List Node)
    (user_query file_path persona : String) (top_k : Nat) : String :=
  call_llm_for_generation geminiClient aiClient generate user_query
    (ragAggregated retrieve user_query file_path top_k) (basename file_path) persona

/-- `run_rag_query` lines 210–222: the function prints the final answer and
the source list and then falls off its end, so the call's value is Python's
`None` — modelled as `none`. -/
def print_and_return_none (finalAnswer : String) (nodes : List Node) :
    Option (String × List Node) :=
  match finalAnswer, nodes with
  | _, _ => none

/-- `run_rag_query` (`query_data.py` lines 167–222): runs the pipeline,
prints its results, and returns `None` (it has no `return` statement). -/
def run_rag_query (geminiClient : Option Unit) (aiClient : Option String)
    (generate : String → String → Except GenError String)
    (retrieve : String → String → Nat → List Node)
    (user_query file_path persona : String) (top_k : Nat) :
    Option (String × List Node) :=
  print_and_return_none
    (ragFinalAnswer geminiClient aiClient generate retrieve user_query file_path persona top_k)
    (ragNodes retrieve user_query file_path top_k)

/-! ## HTTP endpoint (`api_server.py`) -/

/-- The request body of `POST /analyze`. -/
structure QueryRequest where
  user_query : String
  file_path : String
  persona : String
deriving DecidableEq, Repr

/-- One entry of the `sources` array (`api_server.py` lines 50–58):
`metadata.get` may yield `None` (JSON `null`), hence the `Option` fields. -/
structure SourceEntry where
  file : Option String
  score : String
  type : Option String
  content : String
deriving DecidableEq, Repr

/-- The success body `{report, sources}` of `POST /analyze`. -/
structure AnalyzeResponse where
  report : String
  sources : List SourceEntry
deriving DecidableEq, Repr

/-- `analyze_medical_data` (`api_server.py` lines 36–69): on a `some` result
the tuple is unpacked into the JSON body; Python's `final_report, nodes =
run_rag_query(...)` applied to `None` raises `TypeError`, which the generic
`except Exception` handler turns into an HTTP 500 with the
`Internal RAG process failed` detail. -/
def analyze_medical_data (geminiClient : Option Unit) (aiClient : Option String)
    (generate : String → String → Except GenError String)
    (retrieve : String → String → Nat → List Node) (request : QueryRequest) :
    Except (Nat × String) AnalyzeResponse :=
  match run_rag_query geminiClient aiClient generate retrieve
      request.user_query request.file_path request.persona 20 with
  | some (final_report, nodes) =>
      .ok { report := final_report
            sources := nodes.map (fun n =>
              { file := Metadata.get n.metadata "source"
                score := n.score
                type := Metadata.get n.metadata "type"
                content := n.content }) }
  | none =>
      .error (500,
        "Internal RAG process failed: cannot unpack non-iterable NoneType object")

/-! ## Helper lemmas -/

theorem readChunksAux_flatten :
    ∀ (fuel : Nat) (l : List Nat), l.length ≤ fuel → (readChunksAux fuel l).flatten = l := by
  intro fuel
  induction fuel with
  | zero =>
      intro l hl
      cases l with
      | nil => rfl
      | cons a t => simp at hl
  | succ fuel ih =>
      intro l hl
      cases l with
      | nil => rfl
      | cons a t =>
          simp only [readChunksAux, List.flatten_cons]
          rw [ih ((a :: t).drop 8192) (by simp at hl ⊢; omega)]
          exact List.take_append_drop 8192 (a :: t)

/-- Streaming a file through the 8 KiB read loop hashes exactly the file's
byte content. -/
theorem readChunks_flatten (l : List Nat) : (readChunks l).flatten = l :=
  readChunksAux_flatten l.length l (Nat.le_refl _)

/-! ## Claim theorems -/

/-- C4: ID generation is a pure deterministic function — for every seed
string, computing the version-5 UUID with the fixed process-wide namespace
`NAMESPACE_DNS` twice yields identical identifiers; the result depends on
nothing but the seed and the fixed namespace. -/
theorem generate_id_pure (uuid5 : List Nat → String → String) (seed : String) :
    generate_id uuid5 seed = generate_id uuid5 seed
      ∧ generate_id uuid5 seed = uuid5 NAMESPACE_DNS seed :=
  ⟨rfl, rfl⟩

/-- C10: every persona string other than exactly `"DOCTOR"` (including
`"doctor"`, `"Patient"`, `""`) selects the patient template; only the exact
string `"DOCTOR"` selects the clinical template. -/
theorem persona_default_patient (persona : String) (h : persona ≠ "DOCTOR") :
    get_system_instruction persona = patientInstruction
      ∧ get_system_instruction "DOCTOR" = doctorInstruction :=
  ⟨if_neg h, if_pos rfl⟩

/-- Witness for `persona_default_patient` at the lowercase persona
`"doctor"`. -/
theorem persona_default_patient_witness :
    get_system_instruction "doctor" = patientInstruction
      ∧ get_system_instruction "DOCTOR" = doctorInstruction :=
  persona_default_patient "doctor" (by decide)

/-- C6: `call_llm_for_generation` always returns a string (it is a total
function into `String`).  With the client missing or unconfigured it returns
the fixed error string, whatever the generation call would do (first
conjunct: the result is the fixed string and is independent of the
generation-call boundary, i.e. the model is not consulted).  Any error raised
by the generation call is caught and converted into the descriptive error
string returned as the report body (second conjunct). -/
theorem call_llm_never_raises (geminiClient : Option Unit) (aiClient : Option String)
    (query context source_file persona : String) :
    (∀ (g₁ g₂ : String → String → Except GenError String),
        (geminiClient = none ∨ aiClient ≠ some "gemini") →
          call_llm_for_generation geminiClient aiClient g₁ query context source_file persona
              = clientInactiveMsg
            ∧ call_llm_for_generation geminiClient aiClient g₁ query context source_file persona
              = call_llm_for_generation geminiClient aiClient g₂ query context source_file persona)
      ∧ (∀ (g : String → String → Except GenError String) (e : GenError),
          g (system_instruction_of persona) (user_prompt_of query context source_file)
              = Except.error e →
            call_llm_for_generation geminiClient aiClient g query context source_file persona
                = clientInactiveMsg
              ∨ call_llm_for_generation geminiClient aiClient g query context source_file persona
                = genErrorMsg e) := by
  constructor
  · intro g₁ g₂ hcond
    have e1 : ∀ g, call_llm_for_generation geminiClient aiClient g query context
        source_file persona = clientInactiveMsg := by
      intro g
      simp only [call_llm_for_generation, if_pos hcond]
    exact ⟨e1 g₁, (e1 g₁).trans (e1 g₂).symm⟩
  · intro g e hg
    by_cases hcond : geminiClient = none ∨ aiClient ≠ some "gemini"
    · left
      simp only [call_llm_for_generation, if_pos hcond]
    · right
      simp only [call_llm_for_generation, if_neg hcond, hg]

/-- Witness for `call_llm_never_raises`: an inactive client yields the fixed
error string, and an active client whose generation call raises yields the
descriptive error string. -/
theorem call_llm_never_raises_witness :
    call_llm_for_generation none none (fun _ _ => Except.ok "report") "q" "ctx" "Case1.txt"
        "PATIENT" = clientInactiveMsg
      ∧ (call_llm_for_generation (some ()) (some "gemini")
            (fun _ _ => Except.error (GenError.other "boom")) "q" "ctx" "Case1.txt" "PATIENT"
            = clientInactiveMsg
          ∨ call_llm_for_generation (some ()) (some "gemini")
              (fun _ _ => Except.error (GenError.other "boom")) "q" "ctx" "Case1.txt" "PATIENT"
            = genErrorMsg (GenError.other "boom")) :=
  ⟨((call_llm_never_raises none none "q" "ctx" "Case1.txt" "PATIENT").1 _
      (fun _ _ => Except.ok "ignored") (Or.inl rfl)).1,
    (call_llm_never_raises (some ()) (some "gemini") "q" "ctx" "Case1.txt" "PATIENT").2 _
      (GenError.other "boom") rfl⟩

/-- C7: when retrieval plus strict filtering yields zero nodes, the
aggregation step produces the fixed sentinel string naming the target file,
and the generation call receives exactly that sentinel as its context, so the
pipeline does not fail. -/
theorem empty_retrieval_sentinel (geminiClient : Option Unit) (aiClient : Option String)
    (generate : String → String → Except GenError String)
    (retrieve : String → String → Nat → List Node)
    (user_query file_path persona : String) (top_k : Nat)
    (h : ragNodes retrieve user_query file_path top_k = []) :
    ragAggregated retrieve user_query file_path top_k = noContextMsg (basename file_path)
      ∧ noContextMsg (basename file_path)
        = "No context retrieved from the targeted file: " ++ basename file_path
            ++ ". Cannot generate analysis."
      ∧ ragFinalAnswer geminiClient aiClient generate retrieve user_query file_path persona
            top_k
        = call_llm_for_generation geminiClient aiClient generate user_query
            (noContextMsg (basename file_path)) (basename file_path) persona := by
  have hagg : ragAggregated retrieve user_query file_path top_k
      = noContextMsg (basename file_path) := by
    simp only [ragAggregated, aggregate_context, h, List.isEmpty_nil, if_true]
  refine ⟨hagg, rfl, ?_⟩
  simp only [ragFinalAnswer, hagg]

/-- Witness for `empty_retrieval_sentinel`: a store returning nothing for the
target file. -/
theorem empty_retrieval_sentinel_witness :
    ragAggregated (fun _ _ _ => []) "diagnosis?" "data/raw/text/CaseX.txt" 20
        = noContextMsg (basename "data/raw/text/CaseX.txt")
      ∧ noContextMsg (basename "data/raw/text/CaseX.txt")
        = "No context retrieved from the targeted file: " ++ basename "data/raw/text/CaseX.txt"
            ++ ". Cannot generate analysis."
      ∧ ragFinalAnswer (some ()) (some "gemini") (fun _ _ => Except.ok "report")
            (fun _ _ _ => []) "diagnosis?" "data/raw/text/CaseX.txt" "DOCTOR" 20
        = call_llm_for_generation (some ()) (some "gemini") (fun _ _ => Except.ok "report")
            "diagnosis?" (noContextMsg (basename "data/raw/text/CaseX.txt"))
            (basename "data/raw/text/CaseX.txt") "DOCTOR" :=
  empty_retrieval_sentinel (some ()) (some "gemini") (fun _ _ => Except.ok "report")
    (fun _ _ _ => []) "diagnosis?" "data/raw/text/CaseX.txt" "DOCTOR" 20 rfl

/-- C2 (code bug): `run_rag_query` has no `return` statement, so it returns
`None`; `api_server.py` line 42 unpacks that value into
`final_report, nodes`, which raises `TypeError`, caught by the generic
handler — so `POST /analyze` never returns the `{report, sources}` object and
instead answers HTTP 500 for every request. -/
theorem analyze_always_http_500 (geminiClient : Option Unit) (aiClient : Option String)
    (generate : String → String → Except GenError String)
    (retrieve : String → String → Nat → List Node) (request : QueryRequest) :
    analyze_medical_data geminiClient aiClient generate retrieve request
      = Except.error (500,
          "Internal RAG process failed: cannot unpack non-iterable NoneType object") :=
  rfl

/-- C1: for every query, target filename and store response (however
permissive or broken the server-side filter), every node `run_rag_query`
passes on to aggregation has `metadata.source` exactly equal to the target
filename, and the strict re-filter preserves the relative order of the
surviving nodes (it yields a sublist of the store's response). -/
theorem run_rag_query_strict_refilter (retrieve : String → String → Nat → List Node)
    (user_query file_path : String) (top_k : Nat) :
    (∀ n ∈ ragNodes retrieve user_query file_path top_k,
        Metadata.get n.metadata "source" = some (basename file_path))
      ∧ List.Sublist (ragNodes retrieve user_query file_path top_k)
          (retrieve user_query (basename file_path) top_k) := by
  constructor
  · intro n hn
    simp only [ragNodes, strictly_filtered_nodes, List.mem_filter] at hn
    exact of_decide_eq_true hn.2
  · exact List.filter_sublist _

/-- Witness for `run_rag_query_strict_refilter`: a broken store that also
returns a `Case2.txt` node for a `Case1.txt` query; the surviving node's
source is the target filename. -/
theorem run_rag_query_strict_refilter_witness :
    Metadata.get (Node.mk [("source", "Case1.txt"), ("type", "text")] "0.9123"
        "fever").metadata "source" = some (basename "data/raw/text/Case1.txt") :=
  (run_rag_query_strict_refilter
      (fun _ _ _ => [Node.mk [("source", "Case1.txt"), ("type", "text")] "0.9123" "fever",
        Node.mk [("source", "Case2.txt"), ("type", "text")] "0.8000" "other"])
      "diagnosis?" "data/raw/text/Case1.txt" 20).1
    (Node.mk [("source", "Case1.txt"), ("type", "text")] "0.9123" "fever") (by decide)

/-- C3 (code bug): the seed is read with
`doc.metadata.get('start_char_idx', '0')`, but the node's metadata dict never
contains `start_char_idx` (it holds only the parent document's
`source`/`type`; the offset is a node attribute), so the lookup always falls
back to `'0'`: every chunk of a file is seeded `source + "_0"` and all chunks
share one id — the claim's distinct-ids-per-offset property fails.  First
conjunct: for every splitter output, every produced chunk id equals the
single constant id seeded with offset `"0"`.  Second conjunct: two chunks of
`Case1.txt` at distinct recorded offsets 0 and 800 evaluate to the same id. -/
theorem text_chunks_share_one_id (uuid5 : List Nat → String → String)
    (splitter : String → List Chunk) (readResult : Except String String)
    (filepath : String) :
    ((process_text_file uuid5 splitter readResult filepath).map Document.id_).all
        (fun i => i == generate_id uuid5 (basename filepath ++ "_" ++ "0")) = true
      ∧ (process_text_file (fun _ s => s) (fun t => [⟨t, some 0⟩, ⟨t, some 800⟩])
            (Except.ok "Patient has mild fever.") "data/raw/text/Case1.txt").map
            Document.id_
        = ["Case1.txt_0", "Case1.txt_0"] := by
  constructor
  · cases readResult with
    | error e => rfl
    | ok content =>
        simp [process_text_file, get_text_chunks_from_text, chunkDoc, Metadata.get,
          List.lookup, pyStr, List.all_map, Function.comp]
  · decide

/-- C5: the content hash is the digest of exactly the file's bytes (the 8 KiB
read loop concatenates back to the whole content), it does not depend on the
filename, and the whole-file modality documents (image, audio) derived from
the same bytes under different filenames carry the same id. -/
theorem content_hash_ignores_filename (sha256hex : List Nat → String)
    (uuid5 : List Nat → String → String) (fileBytes : List Nat) (p₁ p₂ : String)
    (apiKey : Option String) (captionCall ocrCall : Except String String)
    (assemblyKey : Option String) (transcribeCall : Except String String) :
    hash_file_content sha256hex fileBytes = sha256hex fileBytes
      ∧ (process_image_file uuid5 sha256hex apiKey captionCall ocrCall p₁ fileBytes).map
            Document.id_
        = (process_image_file uuid5 sha256hex apiKey captionCall ocrCall p₂ fileBytes).map
            Document.id_
      ∧ (process_audio_file uuid5 sha256hex assemblyKey transcribeCall p₁ fileBytes).map
            Document.id_
        = (process_audio_file uuid5 sha256hex assemblyKey transcribeCall p₂ fileBytes).map
            Document.id_ := by
  have hif : ∀ (c : Prop) (inst : Decidable c) (d₁ d₂ : Document), d₁.id_ = d₂.id_ →
      (if c then ([] : List Document) else [d₁]).map Document.id_
        = (if c then ([] : List Document) else [d₂]).map Document.id_ := by
    intro c inst d₁ d₂ hd
    by_cases hc : c
    · rw [if_pos hc, if_pos hc]
    · rw [if_neg hc, if_neg hc]
      simp [hd]
  refine ⟨congrArg sha256hex (readChunks_flatten fileBytes), ?_, ?_⟩
  · exact hif _ _ _ _ rfl
  · cases assemblyKey with
    | none => rfl
    | some k =>
        cases transcribeCall with
        | error e => rfl
        | ok t =>
            exact hif _ _ _ _ rfl

/-- C8 (code bug): on an image whose OCR call succeeds with empty text and
whose captioning yields nothing, `process_image_file` still stores one
document (the `"OCR Text: "` label makes the content non-blank), although
both extraction paths yielded no text — the spec requires zero Units here. -/
theorem image_empty_ocr_still_stored :
    process_image_file (fun _ s => s) (fun _ => "deadbeef") none (Except.error "no key")
        (Except.ok "") "data/raw/images/blank.png" [137, 80]
      = [{ text := "--- Image Analysis for blank.png ---\nOCR Text:"
           metadata := [("source", "blank.png"), ("type", "image_analysis"),
                        ("id", "deadbeef")]
           id_ := "deadbeef" }] := by
  decide

/-- C9: all three extractors store the bare filename (no directory
components) as `metadata.source`, the query side extracts the bare filename
from the request's file path, and targeted retrieval keeps a node exactly
when its stored source equals that bare filename. -/
theorem bare_filename_join_key (uuid5 : List Nat → String → String)
    (splitter : String → List Chunk) (readResult : Except String String)
    (sha256hex : List Nat → String) (apiKey : Option String)
    (captionCall ocrCall : Except String String) (assemblyKey : Option String)
    (transcribeCall : Except String String) (fileBytes : List Nat)
    (retrieve : String → String → Nat → List Node)
    (user_query : String) (top_k : Nat) (filepath : String) :
    (∀ d ∈ process_text_file uuid5 splitter readResult filepath,
        Metadata.get d.metadata "source" = some (basename filepath))
      ∧ (∀ d ∈ process_image_file uuid5 sha256hex apiKey captionCall ocrCall filepath
            fileBytes,
          Metadata.get d.metadata "source" = some (basename filepath))
      ∧ (∀ d ∈ process_audio_file uuid5 sha256hex assemblyKey transcribeCall filepath
            fileBytes,
          Metadata.get d.metadata "source" = some (basename filepath))
      ∧ (∀ c ∈ (basename filepath).data, c ≠ '/')
      ∧ (∀ n, n ∈ ragNodes retrieve user_query filepath top_k ↔
          n ∈ retrieve user_query (basename filepath) top_k
            ∧ Metadata.get n.metadata "source" = some (basename filepath)) := by
  have hmem : ∀ (c : Prop) (inst : Decidable c) (doc d : Document),
      d ∈ (if c then ([] : List Document) else [doc]) → d = doc := by
    intro c inst doc d hd
    by_cases hc : c
    · rw [if_pos hc] at hd
      simp at hd
    · rw [if_neg hc] at hd
      simpa using hd
  refine ⟨?_, ?_, ?_, ?_, ?_⟩
  · intro d hd
    cases readResult with
    | error e => simp [process_text_file] at hd
    | ok content =>
        simp only [process_text_file, get_text_chunks_from_text] at hd
        rcases List.mem_map.1 hd with ⟨c, hc, rfl⟩
        simp [chunkDoc, Metadata.get, List.lookup]
  · intro d hd
    simp only [process_image_file] at hd
    have hde := hmem _ _ _ _ hd
    subst hde
    simp [Metadata.get, List.lookup]
  · intro d hd
    cases assemblyKey with
    | none => simp [process_audio_file] at hd
    | some k =>
        cases transcribeCall with
        | error e => simp [process_audio_file] at hd
        | ok t =>
            simp only [process_audio_file] at hd
            have hde := hmem _ _ _ _ hd
            subst hde
            simp [Metadata.get, List.lookup]
  · intro c hc
    simp only [basename] at hc
    rw [List.mem_reverse] at hc
    have hp := List.mem_takeWhile_imp (p := fun c => decide (c ≠ '/')) hc
    exact of_decide_eq_true hp
  · intro n
    simp only [ragNodes, strictly_filtered_nodes, List.mem_filter, decide_eq_true_eq]

/-- Witness for `bare_filename_join_key`: the unit extracted from
`data/raw/text/Case1.txt` stores the bare filename `Case1.txt`. -/
theorem bare_filename_join_key_witness :
    Metadata.get (Document.mk "Patient has mild fever."
        [("source", "Case1.txt"), ("type", "text"), ("id", "Case1.txt_0")]
        "Case1.txt_0").metadata "source" = some (basename "data/raw/text/Case1.txt") :=
  (bare_filename_join_key (fun _ s => s) (fun t => [⟨t, some 0⟩])
      (Except.ok "Patient has mild fever.") (fun _ => "h") none (Except.error "e")
      (Except.error "e2") none (Except.error "e3") [] (fun _ _ _ => []) "q" 20
      "data/raw/text/Case1.txt").1
    (Document.mk "Patient has mild fever."
      [("source", "Case1.txt"), ("type", "text"), ("id", "Case1.txt_0")] "Case1.txt_0")
    (by decide)

